import Mathlib

/-!
Verification of `docker_image_analyzer.py` (Docker image/container
recommendation engine).

The embedding models JSON metadata records as the inductive `JValue`, and the
relevant Python dynamic semantics explicitly:

* `dict.get` / subscripting / `int()` / `str()` / truthiness / `or` are
  modelled by `pyGetD`, `pyIndex`, `pyInt`, `pyStr`, `truthy`, `pyOr`;
* a Python exception propagating out of an expression is modelled by
  `Except.error msg`; a caught exception's `str(exc)` is the carried message;
* the docker CLI backend (`inspect_image`, `image_history`,
  `inspect_container`) is an explicit oracle record `DockerBackend`, keyed by
  the identifier string exactly as the script passes it;
* Python `float()` is modelled with exact rationals (`Rat`) for the plain
  decimal forms that occur in docker size strings; exponent forms, `inf`/`nan`
  and underscore separators are not modelled, and the `.1f` formatting of
  `_format_bytes` rounds half-to-even on the rational rather than on a binary
  float.

`analyze_image` and `analyze_container` are translated rule by rule from the
source, preserving evaluation order, short-circuiting and every raise site.
-/

/-- A JSON value, as produced by `json.loads` on docker CLI output. -/
inductive JValue where
  | null : JValue
  | bool : Bool → JValue
  | int : Int → JValue
  | str : String → JValue
  | arr : List JValue → JValue
  | obj : List (String × JValue) → JValue

/-- `Recommendation` dataclass (subject, severity, message). -/
structure Recommendation where
  subject : String
  severity : String
  message : String
deriving DecidableEq

/-- Python type name of a value, used in exception messages. -/
def pyTypeName : JValue → String
  | .null => "NoneType"
  | .bool _ => "bool"
  | .int _ => "int"
  | .str _ => "str"
  | .arr _ => "list"
  | .obj _ => "dict"

/-- First-match association lookup in a JSON object (objects built from
`json.loads` have distinct keys, so first-match agrees with Python). -/
def jlookup : List (String × JValue) → String → Option JValue
  | [], _ => none
  | (k, v) :: fs, key => if k = key then some v else jlookup fs key

/-- Pure part of `dict.get(key, default)` on a known object. -/
def jvGetD (fs : List (String × JValue)) (k : String) (d : JValue) : JValue :=
  (jlookup fs k).getD d

/-- `v.get(k, d)`: returns the stored value (even `None`) when the key is
present, the default when absent, and raises `AttributeError` when `v` is not
a dict. -/
def pyGetD (v : JValue) (k : String) (d : JValue) : Except String JValue :=
  match v with
  | .obj fs => .ok (jvGetD fs k d)
  | _ => .error ("AttributeError: \x27" ++ pyTypeName v ++ "\x27 object has no attribute \x27get\x27")

/-- `v.get(k)` (default `None`). -/
def pyGet (v : JValue) (k : String) : Except String JValue :=
  pyGetD v k .null

/-- `v[k]` subscripting: `KeyError` when absent, `TypeError` when not a dict. -/
def pyIndex (v : JValue) (k : String) : Except String JValue :=
  match v with
  | .obj fs =>
    match jlookup fs k with
    | some x => .ok x
    | none => .error ("KeyError: \x27" ++ k ++ "\x27")
  | _ => .error ("TypeError: \x27" ++ pyTypeName v ++ "\x27 object is not subscriptable")

/-- Python truthiness. -/
def truthy : JValue → Bool
  | .null => false
  | .bool b => b
  | .int n => n != 0
  | .str s => !s.isEmpty
  | .arr xs => !xs.isEmpty
  | .obj fs => !fs.isEmpty

/-- Python `a or b` (value-returning, short-circuit on truthiness). -/
def pyOr (a b : JValue) : JValue :=
  if truthy a then a else b

/-- Python `v == s` for a string literal `s` (values of other types compare
unequal to strings without raising). -/
def jeqStr (v : JValue) (s : String) : Bool :=
  match v with
  | .str t => t == s
  | _ => false

/-- Digit list to natural number. -/
def digitsToNat (cs : List Char) : Nat :=
  cs.foldl (fun a c => a * 10 + (c.toNat - 48)) 0

/-- Parse an optionally signed run of decimal digits (the plain forms
accepted by Python `int()`; surrounding whitespace and underscores are not
modelled). -/
def parseIntChars (cs : List Char) : Option Int :=
  match cs with
  | '-' :: ds => if ds ≠ [] ∧ ds.all Char.isDigit then some (-(digitsToNat ds : Int)) else none
  | '+' :: ds => if ds ≠ [] ∧ ds.all Char.isDigit then some ((digitsToNat ds : Int)) else none
  | ds => if ds ≠ [] ∧ ds.all Char.isDigit then some ((digitsToNat ds : Int)) else none

/-- Python `int(v)`: ints pass through, bools coerce, digit strings parse,
everything else raises. -/
def pyInt (v : JValue) : Except String Int :=
  match v with
  | .int n => .ok n
  | .bool b => .ok (if b then 1 else 0)
  | .str s =>
    match parseIntChars s.data with
    | some n => .ok n
    | none => .error ("ValueError: invalid literal for int() with base 10: \x27" ++ s ++ "\x27")
  | v => .error ("TypeError: int() argument must be a string or a number, not \x27" ++ pyTypeName v ++ "\x27")

mutual
/-- Python `repr(v)` for JSON values (string quoting simplified to plain
single quotes; the analyzer never reprs strings containing quotes). -/
def pyRepr : JValue → String
  | .null => "None"
  | .bool true => "True"
  | .bool false => "False"
  | .int n => toString n
  | .str s => "\x27" ++ s ++ "\x27"
  | .arr xs => "[" ++ pyReprItems xs ++ "]"
  | .obj fs => "\x7b" ++ pyReprFields fs ++ "\x7d"

/-- Comma-separated reprs of list items. -/
def pyReprItems : List JValue → String
  | [] => ""
  | [x] => pyRepr x
  | x :: y :: xs => pyRepr x ++ ", " ++ pyReprItems (y :: xs)

/-- Comma-separated reprs of dict entries. -/
def pyReprFields : List (String × JValue) → String
  | [] => ""
  | [(k, v)] => "\x27" ++ k ++ "\x27: " ++ pyRepr v
  | (k, v) :: f :: fs => "\x27" ++ k ++ "\x27: " ++ pyRepr v ++ ", " ++ pyReprFields (f :: fs)
end

/-- Python `str(v)`. -/
def pyStr : JValue → String
  | .str s => s
  | v => pyRepr v

/-- Python iteration `for x in v`: lists yield elements, strings yield
single-character strings, dicts yield their keys; other types raise. -/
def pyIterate (v : JValue) : Except String (List JValue) :=
  match v with
  | .arr xs => .ok xs
  | .str s => .ok (s.data.map (fun c => JValue.str (String.singleton c)))
  | .obj fs => .ok (fs.map (fun p => JValue.str p.1))
  | _ => .error ("TypeError: \x27" ++ pyTypeName v ++ "\x27 object is not iterable")

/-- Python `"=" in v`: substring test on strings, membership on lists and
dict keys; raises on non-containers. -/
def pyHasEq (v : JValue) : Except String Bool :=
  match v with
  | .str s => .ok (s.data.contains '=')
  | .arr xs => .ok (xs.any (fun x => jeqStr x "="))
  | .obj fs => .ok (fs.any (fun p => p.1 == "="))
  | _ => .error ("TypeError: argument of type \x27" ++ pyTypeName v ++ "\x27 is not iterable")

/-- Python `s.split("=", 1)` for a string known to contain `"="`, returned as
the (before, after) pair: everything before the first `=` and everything
after it. -/
def splitEqOnce (s : String) : String × String :=
  (String.mk (s.data.takeWhile (fun c => c ≠ '=')),
   String.mk ((s.data.dropWhile (fun c => c ≠ '=')).drop 1))

/-- The dict comprehension of line 207: iterate the env entries in order,
keep those containing `"="`, split each once; a non-string entry passing the
membership test raises at `.split`. -/
def envPairs : List JValue → Except String (List (String × String))
  | [] => .ok []
  | e :: es => do
    let b ← pyHasEq e
    if b then
      match e with
      | .str s => do
        let rest ← envPairs es
        pure (splitEqOnce s :: rest)
      | _ => .error ("AttributeError: \x27" ++ pyTypeName e ++ "\x27 object has no attribute \x27split\x27")
    else envPairs es

/-- Python dict lookup on the comprehension result: with duplicate keys the
last occurrence wins. -/
def dictGet (pairs : List (String × String)) (k : String) : Option String :=
  match pairs with
  | [] => none
  | (k₀, v₀) :: rest =>
    match dictGet rest k with
    | some v => some v
    | none => if k₀ == k then some v₀ else none

/-- Character-list prefix test. -/
def isPrefixList : List Char → List Char → Bool
  | [], _ => true
  | _ :: _, [] => false
  | a :: as, b :: bs => a == b && isPrefixList as bs

/-- Character-list substring test. -/
def containsSub : List Char → List Char → Bool
  | [], pat => pat.isEmpty
  | c :: cs, pat => isPrefixList pat (c :: cs) || containsSub cs pat

/-- Substring test, modelling Python `pat in s`. -/
def strContains (s pat : String) : Bool :=
  containsSub s.data pat.data

/-- Python `s.startswith(pat)`. -/
def startsWithStr (s pat : String) : Bool :=
  isPrefixList pat.data s.data

/-- ASCII uppercase of a string, modelling Python `s.upper()` for the ASCII
strings the analyzer handles. -/
def upperStr (s : String) : String :=
  String.mk (s.data.map Char.toUpper)

/-- ASCII lowercase of a string, modelling Python `s.lower()`. -/
def lowerStr (s : String) : String :=
  String.mk (s.data.map Char.toLower)

/-- Whitespace splitter on character lists: accumulate the current word,
emit it at each whitespace run. -/
def wordsAux : List Char → List Char → List String
  | [], acc => if acc.isEmpty then [] else [String.mk acc]
  | c :: cs, acc =>
    if c.isWhitespace then
      if acc.isEmpty then wordsAux cs [] else String.mk acc :: wordsAux cs []
    else wordsAux cs (acc ++ [c])

/-- Python `s.split()`: split on whitespace runs, discarding empty pieces. -/
def pySplitWs (s : String) : List String :=
  wordsAux s.data []

/-- Python `float(s)` for plain decimal forms (optional sign, digits,
optional fractional part), as an exact rational; other forms yield `none`
(`ValueError`). -/
def parseFloat (s : String) : Option Rat :=
  let signAndRest : Int × List Char :=
    match s.data with
    | '-' :: cs => (-1, cs)
    | '+' :: cs => (1, cs)
    | cs => (1, cs)
  let sign := signAndRest.1
  let rest := signAndRest.2
  let intPart := rest.takeWhile Char.isDigit
  let afterInt := rest.drop intPart.length
  match afterInt with
  | [] =>
    if intPart.isEmpty then none
    else some ((sign * (digitsToNat intPart : Int) : Int) : Rat)
  | '.' :: frac =>
    if frac.all Char.isDigit ∧ (intPart ≠ [] ∨ frac ≠ []) then
      some ((sign : Rat) * ((digitsToNat intPart : Rat) + (digitsToNat frac : Rat) / ((10 : Rat) ^ frac.length)))
    else none
  | _ => none

/-- Round to the nearest integer, ties to even (Python float formatting). -/
def roundHalfEven (x : Rat) : Int :=
  let f := x.floor
  let r := x - (f : Rat)
  if r < (1 : Rat) / 2 then f
  else if r > (1 : Rat) / 2 then f + 1
  else if f % 2 = 0 then f else f + 1

/-- Format a nonnegative rational with one decimal place. -/
def fmtOneDecNN (x : Rat) : String :=
  let n := roundHalfEven (x * 10)
  toString (n / 10) ++ "." ++ toString (n % 10)

/-- Python `f"{x:.1f}"`. -/
def fmtOneDec (x : Rat) : String :=
  if x < 0 then "-" ++ fmtOneDecNN (-x) else fmtOneDecNN x

/-- Loop body of `_format_bytes`. -/
def formatBytesGo : Rat → List String → String
  | value, [] => fmtOneDec value ++ " PB"
  | value, sfx :: rest =>
    if value < 1024 then fmtOneDec value ++ " " ++ sfx
    else formatBytesGo (value / 1024) rest

/-- `_format_bytes` (lines 127-134). -/
def formatBytes (numBytes : Int) : String :=
  formatBytesGo (numBytes : Rat) ["B", "KB", "MB", "GB", "TB"]

/-- The docker CLI backend as an oracle: each query either succeeds with
parsed data or fails, failure carrying `str(exc)` of the raised
`RuntimeError`. -/
structure DockerBackend where
  inspectImage : String → Except String JValue
  imageHistory : String → Except String (List JValue)
  inspectContainer : String → Except String JValue

/-- Lines 139-142 of `analyze_image`: compute `image_id` and `subject`. -/
def imageSubject (image : JValue) : Except String (String × String) := do
  let idv ← pyGet image "ID"
  let image_id := pyStr idv
  let repoV ← pyGet image "Repository"
  let repoNV ← pyGet image "RepositoryName"
  let repo_tags := pyOr repoV (pyOr repoNV (.str "<none>"))
  let tagV ← pyGet image "Tag"
  let tagNV ← pyGet image "TagName"
  let tag := pyOr tagV (pyOr tagNV (.str "<none>"))
  pure (image_id, "image " ++ pyStr repo_tags ++ ":" ++ pyStr tag ++ " (" ++ image_id ++ ")")

/-- Lines 257-259 of `analyze_container`: compute `container_id` and
`subject`. -/
def containerSubject (container : JValue) : Except String (String × String) := do
  let idv ← pyGet container "ID"
  let container_id := pyStr idv
  let namesV ← pyGet container "Names"
  let nameV ← pyGet container "Name"
  let name := pyOr namesV (pyOr nameV (.str "<unnamed>"))
  pure (container_id, "container " ++ pyStr name ++ " (" ++ container_id ++ ")")

def sizeMsg (sizeBytes : Int) : String :=
  "Image size exceeds 500MB (" ++ formatBytes sizeBytes ++ "). Consider multi-stage builds, removing build tools, and pruning package caches."

def layersMsg (n : Nat) : String :=
  "Image has " ++ toString n ++ " layers; consolidating RUN instructions or leveraging multi-stage builds can reduce layer count and size."

def rootUserImageMsg : String :=
  "Container runs as root by default. Define a non-root user for improved security."

def noHealthcheckMsg : String :=
  "No HEALTHCHECK configured. Add one to detect unhealthy containers at runtime."

def portsLabelMsg : String :=
  "Expose ports with clear metadata (labels like org.opencontainers.image.source) to aid SBOM tracking."

def pyUnbufferedMsg : String :=
  "Set PYTHONUNBUFFERED=1 to improve logging responsiveness for Python applications."

def pipCacheMsg : String :=
  "Enable PIP_NO_CACHE_DIR=1 to avoid persisting pip caches inside the image."

def bigLayerMsg (created_by size_str : String) : String :=
  "Layer created by \x27" ++ created_by ++ "\x27 is large (" ++ size_str ++ "). Break the command into smaller steps or clean temporary artifacts to shrink the layer."

def okImageMsg : String :=
  "No issues detected for this image."

/-- Image rule, lines 148-160: size above 500 MiB. -/
def sizeRule (subject : String) (metadata : JValue) : Except String (List Recommendation) := do
  let sv ← pyGetD metadata "Size" (.int 0)
  let size_bytes ← pyInt sv
  if size_bytes > 500 * 1024 * 1024 then
    pure [⟨subject, "info", sizeMsg size_bytes⟩]
  else pure []

/-- Image rule, lines 162-174: more than 20 layers. -/
def layersRule (subject : String) (metadata : JValue) : Except String (List Recommendation) := do
  let root_fs ← pyGetD metadata "RootFS" (.obj [])
  let lv ← pyGet root_fs "Layers"
  match pyOr lv (.arr []) with
  | .arr xs => if xs.length > 20 then pure [⟨subject, "info", layersMsg xs.length⟩] else pure []
  | _ => pure []

/-- Image rule, lines 176-185: user absent or root. -/
def userRule (subject : String) (metadata : JValue) : Except String (List Recommendation) := do
  let config ← pyGetD metadata "Config" (.obj [])
  let uv ← pyGet config "User"
  if jeqStr (pyOr uv (.str "root")) "" || jeqStr (pyOr uv (.str "root")) "root" then
    pure [⟨subject, "warning", rootUserImageMsg⟩]
  else pure []

/-- Image rule, lines 187-194: no healthcheck. -/
def healthcheckRule (subject : String) (metadata : JValue) : Except String (List Recommendation) := do
  let config ← pyGetD metadata "Config" (.obj [])
  let hv ← pyGet config "Healthcheck"
  if !(truthy hv) then
    pure [⟨subject, "suggestion", noHealthcheckMsg⟩]
  else pure []

/-- Image rule, lines 196-204: ports exposed without a source label. -/
def portsLabelRule (subject : String) (metadata : JValue) : Except String (List Recommendation) := do
  let config ← pyGetD metadata "Config" (.obj [])
  let epv ← pyGet config "ExposedPorts"
  if truthy (pyOr epv (.obj [])) then do
    let labels ← pyGetD config "Labels" (.obj [])
    let srcv ← pyGet labels "org.opencontainers.image.source"
    if !(truthy srcv) then pure [⟨subject, "info", portsLabelMsg⟩] else pure []
  else pure []

/-- Image rule, lines 206-215: python command without PYTHONUNBUFFERED. -/
def pythonEnvRule (subject : String) (metadata : JValue) : Except String (List Recommendation) := do
  let config ← pyGetD metadata "Config" (.obj [])
  let envv ← pyGet config "Env"
  let envList ← pyIterate (pyOr envv (.arr []))
  let pairs ← envPairs envList
  if !(pairs.any (fun p => p.1 == "PYTHONUNBUFFERED")) then do
    let cmdv ← pyGet config "Cmd"
    let cmds ← pyIterate (pyOr cmdv (.arr []))
    if cmds.any (fun cmd => strContains (lowerStr (pyStr cmd)) "python") then
      pure [⟨subject, "suggestion", pyUnbufferedMsg⟩]
    else pure []
  else pure []

/-- Image rule, lines 217-224: PIP_NO_CACHE_DIR not affirmative. -/
def pipCacheRule (subject : String) (metadata : JValue) : Except String (List Recommendation) := do
  let config ← pyGetD metadata "Config" (.obj [])
  let envv ← pyGet config "Env"
  let envList ← pyIterate (pyOr envv (.arr []))
  let pairs ← envPairs envList
  let pip := dictGet pairs "PIP_NO_CACHE_DIR"
  if !(match pip with
      | some s => s == "1" || s == "true" || s == "True"
      | none => false) then
    pure [⟨subject, "info", pipCacheMsg⟩]
  else pure []

/-- The comprehension of lines 227-229: layers with a truthy Size not equal
to "0B"/"0 B". -/
def largeLayers : List JValue → Except String (List JValue)
  | [] => .ok []
  | l :: ls => do
    let sz ← pyGet l "Size"
    let keep := truthy sz && !(jeqStr sz "0B") && !(jeqStr sz "0 B")
    let rest ← largeLayers ls
    pure (if keep then l :: rest else rest)

/-- Loop body of lines 230-248, after `float()` succeeded: flag
GB-denominated layers and MB layers above 200, citing CreatedBy. -/
def layerRecOfParsed (subject : String) (l : JValue) (size_str u : String) :
    Option Rat → Except String (Option Recommendation)
  | some x =>
    if startsWithStr (upperStr u) "GB" || (startsWithStr (upperStr u) "MB" && decide (x > 200)) then do
      let cb ← pyGetD l "CreatedBy" (.str "<unknown>")
      pure (some (Recommendation.mk subject "info" (bigLayerMsg (pyStr cb) size_str)))
    else pure none
  | none => pure none

/-- Loop body of lines 230-248, after the whitespace split: anything but
exactly two pieces raises ValueError, which the loop catches and skips. -/
def layerRecOfSplit (subject : String) (l : JValue) (size_str : String) :
    List String → Except String (Option Recommendation)
  | [v, u] => layerRecOfParsed subject l size_str u (parseFloat v)
  | _ => pure none

/-- One iteration of the loop of lines 230-248 on a layer's size string. -/
def layerRecOf (subject : String) (l : JValue) (size_str : String) :
    Except String (Option Recommendation) :=
  layerRecOfSplit subject l size_str (pySplitWs size_str)

/-- The loop of lines 230-248 over the filtered layers. -/
def layerRecs (subject : String) : List JValue → Except String (List Recommendation)
  | [] => .ok []
  | l :: ls => do
    let szv ← pyGet l "Size"
    let r? ← layerRecOf subject l (pyStr szv)
    let rest ← layerRecs subject ls
    pure (match r? with
      | some r => r :: rest
      | none => rest)

/-- Image rule, lines 226-248: large history layers. -/
def historyRule (subject : String) (history : List JValue) : Except String (List Recommendation) := do
  let big ← largeLayers history
  layerRecs subject big

/-- `analyze_image` (lines 137-252). A caught inspect failure yields the
single error Recommendation; any other raise propagates as `.error`. -/
def analyze_image (image : JValue) (d : DockerBackend) : Except String (List Recommendation) := do
  let s ← imageSubject image
  match d.inspectImage s.1 with
  | .error e => pure [⟨s.2, "error", e⟩]
  | .ok metadata => do
    let r1 ← sizeRule s.2 metadata
    let r2 ← layersRule s.2 metadata
    let r3 ← userRule s.2 metadata
    let r4 ← healthcheckRule s.2 metadata
    let r5 ← portsLabelRule s.2 metadata
    let r6 ← pythonEnvRule s.2 metadata
    let r7 ← pipCacheRule s.2 metadata
    let history ← d.imageHistory s.1
    let r8 ← historyRule s.2 history
    pure (if (r1 ++ r2 ++ r3 ++ r4 ++ r5 ++ r6 ++ r7 ++ r8).isEmpty
          then [⟨s.2, "ok", okImageMsg⟩]
          else r1 ++ r2 ++ r3 ++ r4 ++ r5 ++ r6 ++ r7 ++ r8)

def notRunningMsg : String :=
  "Container is not running. Review recent exit codes for stability issues."

def healthWarnMsg (status : String) : String :=
  "Container health status is " ++ status ++ ". Investigate failing health checks."

def rootUserContainerMsg : String :=
  "Container is running as root. Use a non-root user or user namespace remapping for better security."

def restartMsg : String :=
  "No restart policy configured. Consider using --restart unless-stopped for resilient workloads."

def privilegedMsg : String :=
  "Container is running in privileged mode. Drop to least privileges whenever possible."

def memoryMsg : String :=
  "No memory limit set. Configure --memory to avoid node contention and improve stability."

def logConfigMsg : String :=
  "Default logging driver json-file can grow unbounded. Configure max-size/max-file or switch to centralized logging."

def portsBindMsg : String :=
  "Container exposes ports without host bindings. Ensure proper network policies are enforced."

def okContainerMsg : String :=
  "No runtime issues detected for this container."

/-- Container rule, lines 266-278: not running, else unhealthy health
status (the message subscripts `State["Health"]["Status"]`). -/
def runningHealthRule (subject : String) (metadata : JValue) : Except String (List Recommendation) := do
  let state ← pyGetD metadata "State" (.obj [])
  let running ← pyGetD state "Running" (.bool false)
  if !(truthy running) then
    pure [⟨subject, "warning", notRunningMsg⟩]
  else do
    let health ← pyGet state "Health"
    if truthy health then do
      let status ← pyGet health "Status"
      if !(jeqStr status "healthy") then do
        let sv ← pyIndex health "Status"
        pure [⟨subject, "warning", healthWarnMsg (pyStr sv)⟩]
      else pure []
    else pure []

/-- Container rule, lines 280-289: user absent or root. -/
def containerUserRule (subject : String) (metadata : JValue) : Except String (List Recommendation) := do
  let config ← pyGetD metadata "Config" (.obj [])
  let uv ← pyGet config "User"
  if jeqStr (pyOr uv (.str "root")) "" || jeqStr (pyOr uv (.str "root")) "root" then
    pure [⟨subject, "warning", rootUserContainerMsg⟩]
  else pure []

/-- Container rule, lines 291-300: restart policy absent or "no". -/
def restartPolicyRule (subject : String) (metadata : JValue) : Except String (List Recommendation) := do
  let host_config ← pyGetD metadata "HostConfig" (.obj [])
  let rpv ← pyGet host_config "RestartPolicy"
  let nv ← pyGet (pyOr rpv (.obj [])) "Name"
  if jeqStr (pyOr nv (.str "")) "" || jeqStr (pyOr nv (.str "")) "no" then
    pure [⟨subject, "suggestion", restartMsg⟩]
  else pure []

/-- Container rule, lines 302-309: privileged mode. -/
def privilegedRule (subject : String) (metadata : JValue) : Except String (List Recommendation) := do
  let host_config ← pyGetD metadata "HostConfig" (.obj [])
  let pv ← pyGet host_config "Privileged"
  if truthy pv then
    pure [⟨subject, "warning", privilegedMsg⟩]
  else pure []

/-- Container rule, lines 311-318: no memory limit. -/
def memoryRule (subject : String) (metadata : JValue) : Except String (List Recommendation) := do
  let host_config ← pyGetD metadata "HostConfig" (.obj [])
  let mv ← pyGet host_config "Memory"
  if !(truthy mv) then
    pure [⟨subject, "info", memoryMsg⟩]
  else pure []

/-- Container rule, lines 320-327: logging driver Type equal to "" or
"json-file" (a missing LogConfig or Type yields None, which is not in the
tuple, so the rule does not fire). -/
def logConfigRule (subject : String) (metadata : JValue) : Except String (List Recommendation) := do
  let host_config ← pyGetD metadata "HostConfig" (.obj [])
  let lc ← pyGetD host_config "LogConfig" (.obj [])
  let tv ← pyGet lc "Type"
  if jeqStr tv "" || jeqStr tv "json-file" then
    pure [⟨subject, "suggestion", logConfigMsg⟩]
  else pure []

/-- Python `.values()` on a dict; raises on other types. -/
def pyValues (v : JValue) : Except String (List JValue) :=
  match v with
  | .obj fs => .ok (fs.map (fun p => p.2))
  | _ => .error ("AttributeError: \x27" ++ pyTypeName v ++ "\x27 object has no attribute \x27values\x27")

/-- Container rule, lines 329-337: published ports without host bindings. -/
def portsBindingRule (subject : String) (metadata : JValue) : Except String (List Recommendation) := do
  let network_settings ← pyGetD metadata "NetworkSettings" (.obj [])
  let pv ← pyGet network_settings "Ports"
  if truthy pv then do
    let psv ← pyIndex network_settings "Ports"
    let vals ← pyValues psv
    if vals.any (fun dv => match dv with | .null => true | _ => false) then
      pure [⟨subject, "info", portsBindMsg⟩]
    else pure []
  else pure []

/-- `analyze_container` (lines 255-341). -/
def analyze_container (container : JValue) (d : DockerBackend) : Except String (List Recommendation) := do
  let s ← containerSubject container
  match d.inspectContainer s.1 with
  | .error e => pure [⟨s.2, "error", e⟩]
  | .ok metadata => do
    let r1 ← runningHealthRule s.2 metadata
    let r2 ← containerUserRule s.2 metadata
    let r3 ← restartPolicyRule s.2 metadata
    let r4 ← privilegedRule s.2 metadata
    let r5 ← memoryRule s.2 metadata
    let r6 ← logConfigRule s.2 metadata
    let r7 ← portsBindingRule s.2 metadata
    pure (if (r1 ++ r2 ++ r3 ++ r4 ++ r5 ++ r6 ++ r7).isEmpty
          then [⟨s.2, "ok", okContainerMsg⟩]
          else r1 ++ r2 ++ r3 ++ r4 ++ r5 ++ r6 ++ r7)

/-- The image loop of `analyze_once` (lines 359-360): reports rendered per
image until an uncaught exception aborts the pass; the second component
is `some e` when the loop was aborted by a raise carrying `e`. -/
def analyzeImagesBatch (images : List JValue) (d : DockerBackend) : List (List Recommendation) × Option String :=
  match images with
  | [] => ([], none)
  | img :: rest =>
    match analyze_image img d with
    | .error e => ([], some e)
    | .ok recs =>
      let r := analyzeImagesBatch rest d
      (recs :: r.1, r.2)

/-- The container loop of `analyze_once` (lines 373-374). -/
def analyzeContainersBatch (containers : List JValue) (d : DockerBackend) : List (List Recommendation) × Option String :=
  match containers with
  | [] => ([], none)
  | c :: rest =>
    match analyze_container c d with
    | .error e => ([], some e)
    | .ok recs =>
      let r := analyzeContainersBatch rest d
      (recs :: r.1, r.2)

/-- The namespace produced by `parse_args`. -/
structure ArgsNS where
  images : Bool
  containers : Bool
  all_containers : Bool
  watch : Int
deriving DecidableEq

/-- `parse_args` (lines 391-426), over the flag values argparse produced:
each store_true flag is true exactly when it appeared in the argument list
(argparse defaults them to False) and watch defaults to 0. The function
applies the post-processing of lines 418-424. -/
def parse_args (imagesFlag containersFlag allContainersFlag : Bool) (watch : Int) : ArgsNS :=
  let args : ArgsNS := ⟨imagesFlag, containersFlag, allContainersFlag, watch⟩
  let args := if args.all_containers then { args with containers := true } else args
  if !args.images && !args.containers then { args with images := true, containers := true } else args

/-- Fixture: a minimal image descriptor as listed by `docker images`. -/
def img0 : JValue := .obj [("ID", .str "img-1")]

/-- Fixture: a second image descriptor. -/
def img1 : JValue := .obj [("ID", .str "img-2")]

/-- Fixture: a minimal container descriptor as listed by `docker ps`. -/
def ctr0 : JValue := .obj [("ID", .str "ctr-1")]

/-- Fixture: image metadata of size 600 MiB with no user and no healthcheck. -/
def meta600 : JValue := .obj [("Size", .int 629145600)]

/-- Fixture: image metadata on which no issue rule fires. -/
def cleanImageMeta : JValue :=
  .obj [("Config", .obj [("User", .str "app"),
                         ("Healthcheck", .obj [("Test", .str "CMD true")]),
                         ("Env", .arr [.str "PIP_NO_CACHE_DIR=1"])])]

/-- Fixture: container metadata on which no issue rule fires. -/
def cleanContainerMeta : JValue :=
  .obj [("State", .obj [("Running", .bool true)]),
        ("Config", .obj [("User", .str "app")]),
        ("HostConfig", .obj [("RestartPolicy", .obj [("Name", .str "always")]),
                             ("Privileged", .bool false),
                             ("Memory", .int 1073741824),
                             ("LogConfig", .obj [("Type", .str "journald")])])]

/-- Fixture: backend on which both clean metadata records are returned. -/
def bkClean : DockerBackend :=
  ⟨fun _ => .ok cleanImageMeta, fun _ => .ok [], fun _ => .ok cleanContainerMeta⟩

/-- Fixture: backend returning the 600 MiB metadata. -/
def bk600 : DockerBackend :=
  ⟨fun _ => .ok meta600, fun _ => .ok [], fun _ => .ok cleanContainerMeta⟩

/-- Fixture: backend whose inspect queries fail. -/
def bkInspectFail : DockerBackend :=
  ⟨fun _ => .error "Docker command failed: docker inspect img-1", fun _ => .ok [],
   fun _ => .error "Docker command failed: docker inspect ctr-1"⟩

/-- Fixture: backend whose image-history query fails after a successful
inspect. -/
def bkHistFail : DockerBackend :=
  ⟨fun _ => .ok (.obj []), fun _ => .error "Docker command failed: docker history img-1",
   fun _ => .ok (.obj [])⟩

/-- Fixture: image metadata whose Config field is present but null. -/
def metaNullConfig : JValue := .obj [("Config", .null)]

/-- Fixture: backend returning the null-Config metadata. -/
def bkNullConfig : DockerBackend :=
  ⟨fun _ => .ok metaNullConfig, fun _ => .ok [], fun _ => .ok metaNullConfig⟩

/-- Fixture: a history layer of 1.2 GB written without a space before the
unit, as `docker history` format strings produce. -/
def layerGBnospace : JValue := .obj [("Size", .str "1.2GB"), ("CreatedBy", .str "RUN build")]

/-- Fixture: the same layer with a space between value and unit. -/
def layerGBspace : JValue := .obj [("Size", .str "1.2 GB"), ("CreatedBy", .str "RUN build")]

/-- Fixture: backend whose history holds the no-space GB layer. -/
def bkLayerNoSpace : DockerBackend :=
  ⟨fun _ => .ok (.obj []), fun _ => .ok [layerGBnospace], fun _ => .ok (.obj [])⟩

/-- Fixture: backend whose history holds the spaced GB layer. -/
def bkLayerSpace : DockerBackend :=
  ⟨fun _ => .ok (.obj []), fun _ => .ok [layerGBspace], fun _ => .ok (.obj [])⟩

/-- Fixture: container metadata with Running explicitly false. -/
def metaNotRunning : JValue := .obj [("State", .obj [("Running", .bool false)])]

/-- Fixture: backend returning the not-running container metadata. -/
def bkNotRunning : DockerBackend :=
  ⟨fun _ => .ok (.obj []), fun _ => .ok [], fun _ => .ok metaNotRunning⟩

/-- Fixture: container metadata whose logging driver Type is json-file. -/
def metaLogDefault : JValue :=
  .obj [("HostConfig", .obj [("LogConfig", .obj [("Type", .str "json-file")])])]

/-- Fixture: backend returning the json-file logging metadata. -/
def bkLogDefault : DockerBackend :=
  ⟨fun _ => .ok (.obj []), fun _ => .ok [], fun _ => .ok metaLogDefault⟩

/-- Fixture: backend returning entirely empty metadata records. -/
def bkEmptyMeta : DockerBackend :=
  ⟨fun _ => .ok (.obj []), fun _ => .ok [], fun _ => .ok (.obj [])⟩

/-- Fixture: container metadata whose State field is present but null. -/
def metaNullState : JValue := .obj [("State", .null)]

/-- Fixture: backend returning the null-State container metadata. -/
def bkNullState : DockerBackend :=
  ⟨fun _ => .ok metaNullState, fun _ => .ok [], fun _ => .ok metaNullState⟩

/-- Destructuring a successful `Except` bind. -/
theorem bind_ok {α β : Type} {x : Except String α} {f : α → Except String β} {b : β}
    (h : x >>= f = .ok b) : ∃ a, x = .ok a ∧ f a = .ok b := by
  cases x with
  | error e => exact Except.noConfusion h
  | ok a => exact ⟨a, rfl, h⟩

/-- Destructuring a successful `Except` pure. -/
theorem pure_ok {α : Type} {a b : α} (h : (pure a : Except String α) = .ok b) : a = b :=
  Except.ok.inj h

/-- Case analysis on a successful run of `analyze_image`: either the inspect
query failed and the result is the single error Recommendation, or every
rule evaluated and the result is their concatenation (or the ok record). -/
theorem analyze_image_ok_elim {img : JValue} {d : DockerBackend} {recs : List Recommendation}
    (h : analyze_image img d = .ok recs) :
    ∃ p, imageSubject img = .ok p ∧
      ((∃ e, d.inspectImage p.1 = .error e ∧ recs = [⟨p.2, "error", e⟩]) ∨
       (∃ m r1 r2 r3 r4 r5 r6 r7 hs r8,
          d.inspectImage p.1 = .ok m ∧
          sizeRule p.2 m = .ok r1 ∧ layersRule p.2 m = .ok r2 ∧ userRule p.2 m = .ok r3 ∧
          healthcheckRule p.2 m = .ok r4 ∧ portsLabelRule p.2 m = .ok r5 ∧
          pythonEnvRule p.2 m = .ok r6 ∧ pipCacheRule p.2 m = .ok r7 ∧
          d.imageHistory p.1 = .ok hs ∧ historyRule p.2 hs = .ok r8 ∧
          recs = (if (r1 ++ r2 ++ r3 ++ r4 ++ r5 ++ r6 ++ r7 ++ r8).isEmpty
                  then [⟨p.2, "ok", okImageMsg⟩]
                  else r1 ++ r2 ++ r3 ++ r4 ++ r5 ++ r6 ++ r7 ++ r8))) := by
  unfold analyze_image at h
  obtain ⟨p, hp, h⟩ := bind_ok h
  refine ⟨p, hp, ?_⟩
  cases hins : d.inspectImage p.1 with
  | error e =>
    rw [hins] at h
    exact Or.inl ⟨e, rfl, (pure_ok h).symm⟩
  | ok m =>
    rw [hins] at h
    obtain ⟨r1, h1, h⟩ := bind_ok h
    obtain ⟨r2, h2, h⟩ := bind_ok h
    obtain ⟨r3, h3, h⟩ := bind_ok h
    obtain ⟨r4, h4, h⟩ := bind_ok h
    obtain ⟨r5, h5, h⟩ := bind_ok h
    obtain ⟨r6, h6, h⟩ := bind_ok h
    obtain ⟨r7, h7, h⟩ := bind_ok h
    obtain ⟨hs, hh, h⟩ := bind_ok h
    obtain ⟨r8, h8, h⟩ := bind_ok h
    exact Or.inr ⟨m, r1, r2, r3, r4, r5, r6, r7, hs, r8, rfl, h1, h2, h3, h4, h5, h6, h7,
      hh, h8, (pure_ok h).symm⟩

/-- Case analysis on a successful run of `analyze_container`. -/
theorem analyze_container_ok_elim {c : JValue} {d : DockerBackend} {recs : List Recommendation}
    (h : analyze_container c d = .ok recs) :
    ∃ p, containerSubject c = .ok p ∧
      ((∃ e, d.inspectContainer p.1 = .error e ∧ recs = [⟨p.2, "error", e⟩]) ∨
       (∃ m r1 r2 r3 r4 r5 r6 r7,
          d.inspectContainer p.1 = .ok m ∧
          runningHealthRule p.2 m = .ok r1 ∧ containerUserRule p.2 m = .ok r2 ∧
          restartPolicyRule p.2 m = .ok r3 ∧ privilegedRule p.2 m = .ok r4 ∧
          memoryRule p.2 m = .ok r5 ∧ logConfigRule p.2 m = .ok r6 ∧
          portsBindingRule p.2 m = .ok r7 ∧
          recs = (if (r1 ++ r2 ++ r3 ++ r4 ++ r5 ++ r6 ++ r7).isEmpty
                  then [⟨p.2, "ok", okContainerMsg⟩]
                  else r1 ++ r2 ++ r3 ++ r4 ++ r5 ++ r6 ++ r7))) := by
  unfold analyze_container at h
  obtain ⟨p, hp, h⟩ := bind_ok h
  refine ⟨p, hp, ?_⟩
  cases hins : d.inspectContainer p.1 with
  | error e =>
    rw [hins] at h
    exact Or.inl ⟨e, rfl, (pure_ok h).symm⟩
  | ok m =>
    rw [hins] at h
    obtain ⟨r1, h1, h⟩ := bind_ok h
    obtain ⟨r2, h2, h⟩ := bind_ok h
    obtain ⟨r3, h3, h⟩ := bind_ok h
    obtain ⟨r4, h4, h⟩ := bind_ok h
    obtain ⟨r5, h5, h⟩ := bind_ok h
    obtain ⟨r6, h6, h⟩ := bind_ok h
    obtain ⟨r7, h7, h⟩ := bind_ok h
    exact Or.inr ⟨m, r1, r2, r3, r4, r5, r6, r7, rfl, h1, h2, h3, h4, h5, h6, h7,
      (pure_ok h).symm⟩

/-- Reduction of a bind whose left side is a success. -/
theorem ok_bind {α β : Type} (a : α) (f : α → Except String β) :
    ((Except.ok a : Except String α) >>= f) = f a := rfl

/-- C8: parse_args with none of the image/container flags enables both
analyses with running-only containers, and the all-containers flag always
enables container analysis. -/
theorem c8_parse_args_defaults :
    (∀ w : Int, parse_args false false false w =
       { images := true, containers := true, all_containers := false, watch := w }) ∧
    (∀ (i c : Bool) (w : Int), (parse_args i c true w).containers = true) := by
  constructor
  · intro w; rfl
  · intro i c w; cases i <;> cases c <;> rfl

/-- C9: the analyses are deterministic in the descriptor and the backend
data: two backends answering every query identically produce identical
ordered Recommendation sequences. -/
theorem c9_deterministic (img c : JValue) (d1 d2 : DockerBackend)
    (hI : d1.inspectImage = d2.inspectImage)
    (hH : d1.imageHistory = d2.imageHistory)
    (hC : d1.inspectContainer = d2.inspectContainer) :
    analyze_image img d1 = analyze_image img d2 ∧
    analyze_container c d1 = analyze_container c d2 := by
  obtain ⟨i1, h1, c1⟩ := d1
  obtain ⟨i2, h2, c2⟩ := d2
  simp only at hI hH hC
  subst hI; subst hH; subst hC
  exact ⟨rfl, rfl⟩

/-- Witness for C9 at a concrete descriptor and backend. -/
theorem c9_deterministic_witness :
    analyze_image img0 bkClean = analyze_image img0 bkClean ∧
    analyze_container ctr0 bkClean = analyze_container ctr0 bkClean :=
  c9_deterministic img0 ctr0 bkClean bkClean rfl rfl rfl

/-- C1: every successfully evaluated entity yields at least one
Recommendation; when the inspect query succeeds and no issue rule fires,
the result is exactly the single ok Recommendation. -/
theorem c1_at_least_one_recommendation :
    (∀ (img : JValue) (d : DockerBackend) (recs : List Recommendation),
       analyze_image img d = .ok recs → recs ≠ []) ∧
    (∀ (c : JValue) (d : DockerBackend) (recs : List Recommendation),
       analyze_container c d = .ok recs → recs ≠ []) ∧
    (∀ (img : JValue) (d : DockerBackend) (p : String × String) (m : JValue) (hs : List JValue),
       imageSubject img = .ok p → d.inspectImage p.1 = .ok m →
       sizeRule p.2 m = .ok [] → layersRule p.2 m = .ok [] → userRule p.2 m = .ok [] →
       healthcheckRule p.2 m = .ok [] → portsLabelRule p.2 m = .ok [] →
       pythonEnvRule p.2 m = .ok [] → pipCacheRule p.2 m = .ok [] →
       d.imageHistory p.1 = .ok hs → historyRule p.2 hs = .ok [] →
       analyze_image img d = .ok [⟨p.2, "ok", okImageMsg⟩]) ∧
    (∀ (c : JValue) (d : DockerBackend) (p : String × String) (m : JValue),
       containerSubject c = .ok p → d.inspectContainer p.1 = .ok m →
       runningHealthRule p.2 m = .ok [] → containerUserRule p.2 m = .ok [] →
       restartPolicyRule p.2 m = .ok [] → privilegedRule p.2 m = .ok [] →
       memoryRule p.2 m = .ok [] → logConfigRule p.2 m = .ok [] →
       portsBindingRule p.2 m = .ok [] →
       analyze_container c d = .ok [⟨p.2, "ok", okContainerMsg⟩]) := by
  refine ⟨?_, ?_, ?_, ?_⟩
  · intro img d recs h
    obtain ⟨p, -, h⟩ := analyze_image_ok_elim h
    rcases h with ⟨e, -, hrecs⟩ | ⟨m, r1, r2, r3, r4, r5, r6, r7, hs, r8,
      -, -, -, -, -, -, -, -, -, -, hrecs⟩
    · simp [hrecs]
    · subst hrecs
      split
      · simp
      · next hne => exact List.isEmpty_eq_false.mp (Bool.not_eq_true _ ▸ hne)
  · intro c d recs h
    obtain ⟨p, -, h⟩ := analyze_container_ok_elim h
    rcases h with ⟨e, -, hrecs⟩ | ⟨m, r1, r2, r3, r4, r5, r6, r7,
      -, -, -, -, -, -, -, -, hrecs⟩
    · simp [hrecs]
    · subst hrecs
      split
      · simp
      · next hne => exact List.isEmpty_eq_false.mp (Bool.not_eq_true _ ▸ hne)
  · intro img d p m hs hsubj hm h1 h2 h3 h4 h5 h6 h7 hh h8
    unfold analyze_image
    rw [hsubj, ok_bind, hm]
    simp only [h1, h2, h3, h4, h5, h6, h7, hh, h8, ok_bind]
    rfl
  · intro c d p m hsubj hm h1 h2 h3 h4 h5 h6 h7
    unfold analyze_container
    rw [hsubj, ok_bind, hm]
    simp only [h1, h2, h3, h4, h5, h6, h7, ok_bind]
    rfl

/-- Witness for C1 at clean concrete fixtures. -/
theorem c1_at_least_one_recommendation_witness :
    analyze_image img0 bkClean = .ok [⟨"image <none>:<none> (img-1)", "ok", okImageMsg⟩] ∧
    analyze_container ctr0 bkClean = .ok [⟨"container <unnamed> (ctr-1)", "ok", okContainerMsg⟩] :=
  ⟨c1_at_least_one_recommendation.2.2.1 img0 bkClean
     ("img-1", "image <none>:<none> (img-1)") cleanImageMeta []
     rfl rfl rfl rfl rfl rfl rfl rfl rfl rfl rfl,
   c1_at_least_one_recommendation.2.2.2 ctr0 bkClean
     ("ctr-1", "container <unnamed> (ctr-1)") cleanContainerMeta
     rfl rfl rfl rfl rfl rfl rfl rfl rfl⟩

/-- C2 (amended): when the inspect query for an entity fails, its analysis
returns the single severity-error Recommendation carrying the failure
message, and the batch loop proceeds past any entity whose analysis
returned normally. (The image-history query is not covered: its failure
propagates, see the counterexample.) -/
theorem c2_inspect_failure_error_rec :
    (∀ (img : JValue) (d : DockerBackend) (p : String × String) (e : String),
       imageSubject img = .ok p → d.inspectImage p.1 = .error e →
       analyze_image img d = .ok [⟨p.2, "error", e⟩]) ∧
    (∀ (c : JValue) (d : DockerBackend) (p : String × String) (e : String),
       containerSubject c = .ok p → d.inspectContainer p.1 = .error e →
       analyze_container c d = .ok [⟨p.2, "error", e⟩]) ∧
    (∀ (img : JValue) (rest : List JValue) (d : DockerBackend) (l : List Recommendation),
       analyze_image img d = .ok l →
       analyzeImagesBatch (img :: rest) d =
         (l :: (analyzeImagesBatch rest d).1, (analyzeImagesBatch rest d).2)) ∧
    (∀ (c : JValue) (rest : List JValue) (d : DockerBackend) (l : List Recommendation),
       analyze_container c d = .ok l →
       analyzeContainersBatch (c :: rest) d =
         (l :: (analyzeContainersBatch rest d).1, (analyzeContainersBatch rest d).2)) := by
  refine ⟨?_, ?_, ?_, ?_⟩
  · intro img d p e hsubj herr
    unfold analyze_image
    rw [hsubj, ok_bind, herr]
    rfl
  · intro c d p e hsubj herr
    unfold analyze_container
    rw [hsubj, ok_bind, herr]
    rfl
  · intro img rest d l h
    show (match analyze_image img d with
      | .error e => ([], some e)
      | .ok recs => (recs :: (analyzeImagesBatch rest d).1, (analyzeImagesBatch rest d).2)) =
        (l :: (analyzeImagesBatch rest d).1, (analyzeImagesBatch rest d).2)
    rw [h]
  · intro c rest d l h
    show (match analyze_container c d with
      | .error e => ([], some e)
      | .ok recs => (recs :: (analyzeContainersBatch rest d).1, (analyzeContainersBatch rest d).2)) =
        (l :: (analyzeContainersBatch rest d).1, (analyzeContainersBatch rest d).2)
    rw [h]

/-- Witness for C2 at a failing inspect backend. -/
theorem c2_inspect_failure_error_rec_witness :
    analyze_image img0 bkInspectFail =
      .ok [⟨"image <none>:<none> (img-1)", "error", "Docker command failed: docker inspect img-1"⟩] ∧
    analyze_container ctr0 bkInspectFail =
      .ok [⟨"container <unnamed> (ctr-1)", "error", "Docker command failed: docker inspect ctr-1"⟩] ∧
    analyzeImagesBatch [img0, img1] bkInspectFail =
      ([[⟨"image <none>:<none> (img-1)", "error", "Docker command failed: docker inspect img-1"⟩],
        [⟨"image <none>:<none> (img-2)", "error", "Docker command failed: docker inspect img-1"⟩]], none) :=
  ⟨c2_inspect_failure_error_rec.1 img0 bkInspectFail
     ("img-1", "image <none>:<none> (img-1)") "Docker command failed: docker inspect img-1" rfl rfl,
   c2_inspect_failure_error_rec.2.1 ctr0 bkInspectFail
     ("ctr-1", "container <unnamed> (ctr-1)") "Docker command failed: docker inspect ctr-1" rfl rfl,
   c2_inspect_failure_error_rec.2.2.1 img0 [img1] bkInspectFail _
     (c2_inspect_failure_error_rec.1 img0 bkInspectFail
       ("img-1", "image <none>:<none> (img-1)") "Docker command failed: docker inspect img-1" rfl rfl)⟩

/-- Counterexample for C2 as stated: a failing image-history query does not
produce an error Recommendation; it propagates as an uncaught exception and
aborts the whole image batch, so the second image is never evaluated. -/
theorem c2_history_failure_counterexample :
    analyze_image img0 bkHistFail = .error "Docker command failed: docker history img-1" ∧
    analyzeImagesBatch [img0, img1] bkHistFail =
      ([], some "Docker command failed: docker history img-1") :=
  ⟨rfl, rfl⟩

/-- A rule-result list that contains an element is returned unchanged by the
final emptiness check. -/
theorem ite_isEmpty_of_mem {x : Recommendation} {l ok : List Recommendation} (hx : x ∈ l) :
    (if l.isEmpty then ok else l) = l := by
  cases l with
  | nil => exact absurd hx (List.not_mem_nil x)
  | cons a as => rfl

/-- The running/health rule fires the not-running warning whenever the
(possibly defaulted) Running field is false. -/
theorem runningHealthRule_not_running {subj : String} {mfs sfs : List (String × JValue)}
    (hstate : jvGetD mfs "State" (.obj []) = .obj sfs)
    (hrun : jvGetD sfs "Running" (.bool false) = .bool false) :
    runningHealthRule subj (.obj mfs) = .ok [⟨subj, "warning", notRunningMsg⟩] := by
  unfold runningHealthRule
  simp only [pyGetD, hstate, ok_bind, hrun]
  rfl

/-- C5: for every container whose inspected State has Running equal to false
(or absent, the Python default), a completed analysis includes the
not-running warning, whatever the other fields hold. -/
theorem c5_not_running_warning (c : JValue) (d : DockerBackend) (p : String × String)
    (mfs sfs : List (String × JValue)) (recs : List Recommendation)
    (hsubj : containerSubject c = .ok p)
    (hm : d.inspectContainer p.1 = .ok (.obj mfs))
    (hstate : jvGetD mfs "State" (.obj []) = .obj sfs)
    (hrun : jvGetD sfs "Running" (.bool false) = .bool false)
    (h : analyze_container c d = .ok recs) :
    Recommendation.mk p.2 "warning" notRunningMsg ∈ recs := by
  obtain ⟨p', hp', hcase⟩ := analyze_container_ok_elim h
  rw [hsubj] at hp'
  obtain rfl : p = p' := Except.ok.inj hp'
  rcases hcase with ⟨e, he, -⟩ |
    ⟨m, r1, r2, r3, r4, r5, r6, r7, hm', h1, h2, h3, h4, h5, h6, h7, hrecs⟩
  · rw [hm] at he; exact Except.noConfusion he
  · rw [hm] at hm'
    obtain rfl : JValue.obj mfs = m := Except.ok.inj hm'
    have h1' := @runningHealthRule_not_running p.2 mfs sfs hstate hrun
    rw [h1'] at h1
    obtain rfl : [Recommendation.mk p.2 "warning" notRunningMsg] = r1 := Except.ok.inj h1
    have hmem : Recommendation.mk p.2 "warning" notRunningMsg ∈
        [Recommendation.mk p.2 "warning" notRunningMsg] ++ r2 ++ r3 ++ r4 ++ r5 ++ r6 ++ r7 := by
      simp [List.mem_append]
    rw [hrecs, ite_isEmpty_of_mem hmem]
    exact hmem

/-- Witness for C5 at a concrete stopped container. -/
theorem c5_not_running_warning_witness :
    Recommendation.mk "container <unnamed> (ctr-1)" "warning" notRunningMsg ∈
      [Recommendation.mk "container <unnamed> (ctr-1)" "warning" notRunningMsg,
       Recommendation.mk "container <unnamed> (ctr-1)" "warning" rootUserContainerMsg,
       Recommendation.mk "container <unnamed> (ctr-1)" "suggestion" restartMsg,
       Recommendation.mk "container <unnamed> (ctr-1)" "info" memoryMsg] :=
  c5_not_running_warning ctr0 bkNotRunning ("ctr-1", "container <unnamed> (ctr-1)")
    [("State", .obj [("Running", .bool false)])] [("Running", .bool false)] _
    rfl rfl rfl rfl rfl

/-- Reduction of `pyGetD` on an object. -/
theorem pyGetD_obj (fs : List (String × JValue)) (k : String) (d : JValue) :
    pyGetD (.obj fs) k d = .ok (jvGetD fs k d) := rfl

/-- Reduction of `pyGet` on an object. -/
theorem pyGet_obj (fs : List (String × JValue)) (k : String) :
    pyGet (.obj fs) k = .ok (jvGetD fs k .null) := rfl

/-- A defaulted get on an absent key yields the default. -/
theorem jvGetD_none {fs : List (String × JValue)} {k : String} (d : JValue)
    (h : jlookup fs k = none) : jvGetD fs k d = d := by
  rw [jvGetD, h]; rfl

/-- A defaulted get on a present key yields its value. -/
theorem jvGetD_some {fs : List (String × JValue)} {k : String} {v : JValue} (d : JValue)
    (h : jlookup fs k = some v) : jvGetD fs k d = v := by
  rw [jvGetD, h]; rfl

/-- Reduction of `pyInt` on an integer. -/
theorem pyInt_int (n : Int) : pyInt (.int n) = .ok n := rfl

/-- The size rule fires for any metadata whose Size exceeds 500 MiB. -/
theorem sizeRule_fires {subj : String} {mfs : List (String × JValue)} {n : Int}
    (h : jvGetD mfs "Size" (.int 0) = .int n) (hn : n > 500 * 1024 * 1024) :
    sizeRule subj (.obj mfs) = .ok [⟨subj, "info", sizeMsg n⟩] := by
  unfold sizeRule
  rw [pyGetD_obj, h, ok_bind, pyInt_int, ok_bind, if_pos hn]
  rfl

/-- The image user rule fires when Config carries no User key. -/
theorem userRule_fires {subj : String} {mfs cfs : List (String × JValue)}
    (hcfg : jvGetD mfs "Config" (.obj []) = .obj cfs)
    (huser : jlookup cfs "User" = none) :
    userRule subj (.obj mfs) = .ok [⟨subj, "warning", rootUserImageMsg⟩] := by
  unfold userRule
  rw [pyGetD_obj, hcfg, ok_bind, pyGet_obj, jvGetD_none _ huser, ok_bind]
  rfl

/-- The healthcheck rule fires when Config carries no Healthcheck key. -/
theorem healthcheckRule_fires {subj : String} {mfs cfs : List (String × JValue)}
    (hcfg : jvGetD mfs "Config" (.obj []) = .obj cfs)
    (hhc : jlookup cfs "Healthcheck" = none) :
    healthcheckRule subj (.obj mfs) = .ok [⟨subj, "suggestion", noHealthcheckMsg⟩] := by
  unfold healthcheckRule
  rw [pyGetD_obj, hcfg, ok_bind, pyGet_obj, jvGetD_none _ hhc, ok_bind]
  rfl

/-- C4: an image of exactly 600 MiB with no declared user and no healthcheck
yields, among its Recommendations and in rule-evaluation order, the size
info, the root-user warning and the missing-healthcheck suggestion. -/
theorem c4_size_user_health_order (img : JValue) (d : DockerBackend) (p : String × String)
    (mfs cfs : List (String × JValue)) (recs : List Recommendation)
    (hsubj : imageSubject img = .ok p)
    (hm : d.inspectImage p.1 = .ok (.obj mfs))
    (hsize : jvGetD mfs "Size" (.int 0) = .int 629145600)
    (hcfg : jvGetD mfs "Config" (.obj []) = .obj cfs)
    (huser : jlookup cfs "User" = none)
    (hhc : jlookup cfs "Healthcheck" = none)
    (h : analyze_image img d = .ok recs) :
    List.Sublist
      [Recommendation.mk p.2 "info" (sizeMsg 629145600),
       Recommendation.mk p.2 "warning" rootUserImageMsg,
       Recommendation.mk p.2 "suggestion" noHealthcheckMsg] recs := by
  obtain ⟨p', hp', hcase⟩ := analyze_image_ok_elim h
  rw [hsubj] at hp'
  obtain rfl : p = p' := Except.ok.inj hp'
  rcases hcase with ⟨e, he, -⟩ |
    ⟨m, r1, r2, r3, r4, r5, r6, r7, hs, r8, hm', h1, h2, h3, h4, h5, h6, h7, hh, h8, hrecs⟩
  · rw [hm] at he; exact Except.noConfusion he
  · rw [hm] at hm'
    obtain rfl : JValue.obj mfs = m := Except.ok.inj hm'
    rw [@sizeRule_fires p.2 mfs 629145600 hsize (by norm_num)] at h1
    obtain rfl : [Recommendation.mk p.2 "info" (sizeMsg 629145600)] = r1 := Except.ok.inj h1
    rw [@userRule_fires p.2 mfs cfs hcfg huser] at h3
    obtain rfl : [Recommendation.mk p.2 "warning" rootUserImageMsg] = r3 := Except.ok.inj h3
    rw [@healthcheckRule_fires p.2 mfs cfs hcfg hhc] at h4
    obtain rfl : [Recommendation.mk p.2 "suggestion" noHealthcheckMsg] = r4 := Except.ok.inj h4
    have hmem : Recommendation.mk p.2 "info" (sizeMsg 629145600) ∈
        [Recommendation.mk p.2 "info" (sizeMsg 629145600)] ++ r2 ++
          [Recommendation.mk p.2 "warning" rootUserImageMsg] ++
          [Recommendation.mk p.2 "suggestion" noHealthcheckMsg] ++ r5 ++ r6 ++ r7 ++ r8 := by
      simp [List.mem_append]
    rw [hrecs, ite_isEmpty_of_mem hmem]
    have base : List.Sublist
        [Recommendation.mk p.2 "info" (sizeMsg 629145600),
         Recommendation.mk p.2 "warning" rootUserImageMsg,
         Recommendation.mk p.2 "suggestion" noHealthcheckMsg]
        ([Recommendation.mk p.2 "info" (sizeMsg 629145600)] ++ r2 ++
          [Recommendation.mk p.2 "warning" rootUserImageMsg] ++
          [Recommendation.mk p.2 "suggestion" noHealthcheckMsg]) := by
      have h12 : List.Sublist
          [Recommendation.mk p.2 "info" (sizeMsg 629145600),
           Recommendation.mk p.2 "warning" rootUserImageMsg]
          ([Recommendation.mk p.2 "info" (sizeMsg 629145600)] ++ r2 ++
            [Recommendation.mk p.2 "warning" rootUserImageMsg]) :=
        List.Sublist.append
          (List.sublist_append_left [Recommendation.mk p.2 "info" (sizeMsg 629145600)] r2)
          (List.Sublist.refl _)
      exact List.Sublist.append h12 (List.Sublist.refl _)
    exact base.trans ((List.sublist_append_left _ r5).trans
      ((List.sublist_append_left _ r6).trans
        ((List.sublist_append_left _ r7).trans (List.sublist_append_left _ r8))))

/-- Witness for C4 at the 600 MiB fixture. -/
theorem c4_size_user_health_order_witness :
    List.Sublist
      [Recommendation.mk "image <none>:<none> (img-1)" "info" (sizeMsg 629145600),
       Recommendation.mk "image <none>:<none> (img-1)" "warning" rootUserImageMsg,
       Recommendation.mk "image <none>:<none> (img-1)" "suggestion" noHealthcheckMsg]
      [Recommendation.mk "image <none>:<none> (img-1)" "info" (sizeMsg 629145600),
       Recommendation.mk "image <none>:<none> (img-1)" "warning" rootUserImageMsg,
       Recommendation.mk "image <none>:<none> (img-1)" "suggestion" noHealthcheckMsg,
       Recommendation.mk "image <none>:<none> (img-1)" "info" pipCacheMsg] :=
  c4_size_user_health_order img0 bk600 ("img-1", "image <none>:<none> (img-1)")
    [("Size", .int 629145600)] [] _ rfl rfl rfl rfl rfl rfl rfl

/-- The logging rule fires when the LogConfig Type value is json-file or the
empty string. -/
theorem logConfigRule_fires {subj : String} {mfs hfs lfs : List (String × JValue)}
    (hhc : jvGetD mfs "HostConfig" (.obj []) = .obj hfs)
    (hlc : jvGetD hfs "LogConfig" (.obj []) = .obj lfs)
    (ht : jvGetD lfs "Type" .null = .str "json-file" ∨ jvGetD lfs "Type" .null = .str "") :
    logConfigRule subj (.obj mfs) = .ok [⟨subj, "suggestion", logConfigMsg⟩] := by
  unfold logConfigRule
  rw [pyGetD_obj, hhc, ok_bind, pyGetD_obj, hlc, ok_bind, pyGet_obj]
  rcases ht with ht | ht <;> rw [ht, ok_bind] <;> rfl

/-- The logging rule stays silent when the Type key is absent: the
resulting None is not in the ("", "json-file") tuple. -/
theorem logConfigRule_silent_when_absent {subj : String} {mfs hfs lfs : List (String × JValue)}
    (hhc : jvGetD mfs "HostConfig" (.obj []) = .obj hfs)
    (hlc : jvGetD hfs "LogConfig" (.obj []) = .obj lfs)
    (ht : jlookup lfs "Type" = none) :
    logConfigRule subj (.obj mfs) = .ok [] := by
  unfold logConfigRule
  rw [pyGetD_obj, hhc, ok_bind, pyGetD_obj, hlc, ok_bind, pyGet_obj, jvGetD_none _ ht, ok_bind]
  rfl

/-- C7 (amended): the logging-driver suggestion fires exactly on a present
Type equal to the empty string or json-file; when the LogConfig block or its
Type key is missing entirely, the rule does not fire. -/
theorem c7_logging_driver :
    (∀ (c : JValue) (d : DockerBackend) (p : String × String)
       (mfs hfs lfs : List (String × JValue)) (recs : List Recommendation),
       containerSubject c = .ok p →
       d.inspectContainer p.1 = .ok (.obj mfs) →
       jvGetD mfs "HostConfig" (.obj []) = .obj hfs →
       jvGetD hfs "LogConfig" (.obj []) = .obj lfs →
       (jvGetD lfs "Type" .null = .str "json-file" ∨ jvGetD lfs "Type" .null = .str "") →
       analyze_container c d = .ok recs →
       Recommendation.mk p.2 "suggestion" logConfigMsg ∈ recs) ∧
    (∀ (subj : String) (mfs hfs lfs : List (String × JValue)),
       jvGetD mfs "HostConfig" (.obj []) = .obj hfs →
       jvGetD hfs "LogConfig" (.obj []) = .obj lfs →
       jlookup lfs "Type" = none →
       logConfigRule subj (.obj mfs) = .ok []) := by
  constructor
  · intro c d p mfs hfs lfs recs hsubj hm hhc hlc ht h
    obtain ⟨p', hp', hcase⟩ := analyze_container_ok_elim h
    rw [hsubj] at hp'
    obtain rfl : p = p' := Except.ok.inj hp'
    rcases hcase with ⟨e, he, -⟩ |
      ⟨m, r1, r2, r3, r4, r5, r6, r7, hm', h1, h2, h3, h4, h5, h6, h7, hrecs⟩
    · rw [hm] at he; exact Except.noConfusion he
    · rw [hm] at hm'
      obtain rfl : JValue.obj mfs = m := Except.ok.inj hm'
      rw [@logConfigRule_fires p.2 mfs hfs lfs hhc hlc ht] at h6
      obtain rfl : [Recommendation.mk p.2 "suggestion" logConfigMsg] = r6 := Except.ok.inj h6
      have hmem : Recommendation.mk p.2 "suggestion" logConfigMsg ∈
          r1 ++ r2 ++ r3 ++ r4 ++ r5 ++ [Recommendation.mk p.2 "suggestion" logConfigMsg] ++ r7 := by
        simp [List.mem_append]
      rw [hrecs, ite_isEmpty_of_mem hmem]
      exact hmem
  · intro subj mfs hfs lfs hhc hlc ht
    exact logConfigRule_silent_when_absent hhc hlc ht

/-- Witness for C7 at concrete fixtures: the suggestion appears for an
explicit json-file Type, and the rule output is empty for empty metadata. -/
theorem c7_logging_driver_witness :
    Recommendation.mk "container <unnamed> (ctr-1)" "suggestion" logConfigMsg ∈
      [Recommendation.mk "container <unnamed> (ctr-1)" "warning" notRunningMsg,
       Recommendation.mk "container <unnamed> (ctr-1)" "warning" rootUserContainerMsg,
       Recommendation.mk "container <unnamed> (ctr-1)" "suggestion" restartMsg,
       Recommendation.mk "container <unnamed> (ctr-1)" "info" memoryMsg,
       Recommendation.mk "container <unnamed> (ctr-1)" "suggestion" logConfigMsg] ∧
    logConfigRule "s" (.obj []) = .ok [] :=
  ⟨c7_logging_driver.1 ctr0 bkLogDefault ("ctr-1", "container <unnamed> (ctr-1)")
     [("HostConfig", .obj [("LogConfig", .obj [("Type", .str "json-file")])])]
     [("LogConfig", .obj [("Type", .str "json-file")])] [("Type", .str "json-file")] _
     rfl rfl rfl rfl (Or.inl rfl) rfl,
   c7_logging_driver.2 "s" [] [] [] rfl rfl rfl⟩

/-- Counterexample for C7 as stated: with LogConfig (and hence Type) missing
entirely, the analysis of an otherwise empty container record emits no
logging-driver suggestion. -/
theorem c7_absent_type_counterexample :
    analyze_container ctr0 bkEmptyMeta = .ok
      [Recommendation.mk "container <unnamed> (ctr-1)" "warning" notRunningMsg,
       Recommendation.mk "container <unnamed> (ctr-1)" "warning" rootUserContainerMsg,
       Recommendation.mk "container <unnamed> (ctr-1)" "suggestion" restartMsg,
       Recommendation.mk "container <unnamed> (ctr-1)" "info" memoryMsg] ∧
    Recommendation.mk "container <unnamed> (ctr-1)" "suggestion" logConfigMsg ∉
      [Recommendation.mk "container <unnamed> (ctr-1)" "warning" notRunningMsg,
       Recommendation.mk "container <unnamed> (ctr-1)" "warning" rootUserContainerMsg,
       Recommendation.mk "container <unnamed> (ctr-1)" "suggestion" restartMsg,
       Recommendation.mk "container <unnamed> (ctr-1)" "info" memoryMsg] := by
  exact ⟨rfl, by decide⟩

/-- A layer whose truthy Size string differs from "0B" and "0 B" passes the
comprehension filter of lines 227-229. -/
theorem largeLayers_mem {hist big : List JValue} {lfs : List (String × JValue)} {s : String}
    (hbig : largeLayers hist = .ok big)
    (hmem : (JValue.obj lfs) ∈ hist)
    (hsz : jlookup lfs "Size" = some (.str s))
    (hs : s ≠ "") (h0 : s ≠ "0B") (h1 : s ≠ "0 B") :
    (JValue.obj lfs) ∈ big := by
  induction hist generalizing big with
  | nil => exact absurd hmem (List.not_mem_nil _)
  | cons l ls ih =>
    unfold largeLayers at hbig
    obtain ⟨sz, hszv, hbig⟩ := bind_ok hbig
    obtain ⟨rest, hrest, hbig⟩ := bind_ok hbig
    have hbig' := pure_ok hbig
    rcases List.mem_cons.mp hmem with rfl | hmem'
    · rw [pyGet_obj, jvGetD_some _ hsz] at hszv
      obtain rfl : JValue.str s = sz := Except.ok.inj hszv
      have hkeep : (truthy (.str s) && !(jeqStr (.str s) "0B") && !(jeqStr (.str s) "0 B")) = true := by
        have hemp : s.isEmpty = false := by
          cases hvi : s.isEmpty
          · rfl
          · exact absurd ((String.isEmpty_iff s).mp hvi) hs
        have hA : truthy (.str s) = true := by
          simp [truthy, hemp]
        have hB : jeqStr (.str s) "0B" = false := by
          simp [jeqStr, h0]
        have hC : jeqStr (.str s) "0 B" = false := by
          simp [jeqStr, h1]
        rw [hA, hB, hC]
        rfl
      rw [hkeep] at hbig'
      rw [if_pos rfl] at hbig'
      subst hbig'
      exact List.mem_cons_self _ _
    · have hrec := ih hrest hmem'
      subst hbig'
      split
      · exact List.mem_cons_of_mem _ hrec
      · exact hrec

/-- The loop body emits the large-layer Recommendation for a spaced size
string whose unit starts with GB, or with MB at a value above 200. -/
theorem layerRecOf_some {subj : String} {lfs : List (String × JValue)} {s v u : String} {x : Rat}
    (hsplit : pySplitWs s = [v, u])
    (hx : parseFloat v = some x)
    (hcond : (startsWithStr (upperStr u) "GB" ||
              (startsWithStr (upperStr u) "MB" && decide (x > 200))) = true) :
    layerRecOf subj (.obj lfs) s =
      .ok (some (Recommendation.mk subj "info"
        (bigLayerMsg (pyStr (jvGetD lfs "CreatedBy" (.str "<unknown>"))) s))) := by
  unfold layerRecOf
  rw [hsplit]
  simp only [layerRecOfSplit]
  rw [hx]
  simp only [layerRecOfParsed]
  rw [hcond, if_pos rfl, pyGetD_obj, ok_bind]
  rfl

/-- A filtered layer for which the loop body emits a Recommendation places
it in the loop's output. -/
theorem layerRecs_mem {subj : String} {big : List JValue} {out : List Recommendation}
    {lfs : List (String × JValue)} {s : String} {rec : Recommendation}
    (hout : layerRecs subj big = .ok out)
    (hmem : (JValue.obj lfs) ∈ big)
    (hsz : jlookup lfs "Size" = some (.str s))
    (hbody : layerRecOf subj (.obj lfs) s = .ok (some rec)) :
    rec ∈ out := by
  induction big generalizing out with
  | nil => exact absurd hmem (List.not_mem_nil _)
  | cons l ls ih =>
    unfold layerRecs at hout
    obtain ⟨szv, hszv, hout⟩ := bind_ok hout
    obtain ⟨r?, hr, hout⟩ := bind_ok hout
    obtain ⟨rest, hrest, hout⟩ := bind_ok hout
    have hout' := pure_ok hout
    rcases List.mem_cons.mp hmem with rfl | hmem'
    · rw [pyGet_obj, jvGetD_some _ hsz] at hszv
      obtain rfl : JValue.str s = szv := Except.ok.inj hszv
      rw [show pyStr (JValue.str s) = s from rfl, hbody] at hr
      obtain rfl : Option.some rec = r? := Except.ok.inj hr
      have h2 : rec :: rest = out := hout'
      subst h2
      exact List.mem_cons_self _ _
    · have hrec := ih hrest hmem'
      subst hout'
      cases r? with
      | some r => exact List.mem_cons_of_mem _ hrec
      | none => exact hrec

/-- C6 (amended): a history layer whose Size string is a whitespace-spaced
value and unit, the value parsing as a float and the unit being GB-prefixed
(or MB-prefixed with value above 200), yields the severity-info
Recommendation citing the layer's CreatedBy instruction. Size strings
without whitespace (e.g. "1.2GB") fail the two-way unpacking with
ValueError and are silently skipped, see the counterexample. -/
theorem c6_large_history_layer (img : JValue) (d : DockerBackend) (p : String × String)
    (m : JValue) (hs : List JValue) (lfs : List (String × JValue))
    (s v u : String) (x : Rat) (recs : List Recommendation)
    (hsubj : imageSubject img = .ok p)
    (hm : d.inspectImage p.1 = .ok m)
    (hh : d.imageHistory p.1 = .ok hs)
    (hmem : (JValue.obj lfs) ∈ hs)
    (hsz : jlookup lfs "Size" = some (.str s))
    (hne : s ≠ "") (h0 : s ≠ "0B") (h1 : s ≠ "0 B")
    (hsplit : pySplitWs s = [v, u])
    (hx : parseFloat v = some x)
    (hcond : (startsWithStr (upperStr u) "GB" ||
              (startsWithStr (upperStr u) "MB" && decide (x > 200))) = true)
    (h : analyze_image img d = .ok recs) :
    Recommendation.mk p.2 "info"
      (bigLayerMsg (pyStr (jvGetD lfs "CreatedBy" (.str "<unknown>"))) s) ∈ recs := by
  obtain ⟨p', hp', hcase⟩ := analyze_image_ok_elim h
  rw [hsubj] at hp'
  obtain rfl : p = p' := Except.ok.inj hp'
  rcases hcase with ⟨e, he, -⟩ |
    ⟨m', r1, r2, r3, r4, r5, r6, r7, hs', r8, hm', h1', h2', h3', h4', h5', h6', h7', hh', h8', hrecs⟩
  · rw [hm] at he; exact Except.noConfusion he
  · rw [hh] at hh'
    obtain rfl : hs = hs' := Except.ok.inj hh'
    unfold historyRule at h8'
    obtain ⟨big, hbig, h8'⟩ := bind_ok h8'
    have hinbig := largeLayers_mem hbig hmem hsz hne h0 h1
    have hbody := @layerRecOf_some p.2 lfs s v u x hsplit hx hcond
    have hinr8 := layerRecs_mem h8' hinbig hsz hbody
    have hmemall : Recommendation.mk p.2 "info"
        (bigLayerMsg (pyStr (jvGetD lfs "CreatedBy" (.str "<unknown>"))) s) ∈
        r1 ++ r2 ++ r3 ++ r4 ++ r5 ++ r6 ++ r7 ++ r8 := by
      simp only [List.mem_append]
      exact Or.inr hinr8
    rw [hrecs, ite_isEmpty_of_mem hmemall]
    exact hmemall

/-- Witness for C6 at the spaced 1.2 GB layer fixture. -/
theorem c6_large_history_layer_witness :
    Recommendation.mk "image <none>:<none> (img-1)" "info" (bigLayerMsg "RUN build" "1.2 GB") ∈
      [Recommendation.mk "image <none>:<none> (img-1)" "warning" rootUserImageMsg,
       Recommendation.mk "image <none>:<none> (img-1)" "suggestion" noHealthcheckMsg,
       Recommendation.mk "image <none>:<none> (img-1)" "info" pipCacheMsg,
       Recommendation.mk "image <none>:<none> (img-1)" "info" (bigLayerMsg "RUN build" "1.2 GB")] :=
  c6_large_history_layer img0 bkLayerSpace ("img-1", "image <none>:<none> (img-1)")
    (.obj []) [layerGBspace] [("Size", .str "1.2 GB"), ("CreatedBy", .str "RUN build")]
    "1.2 GB" "1.2" "GB" _ _
    rfl rfl rfl (List.mem_singleton.mpr rfl) rfl
    (by decide) (by decide) (by decide) rfl rfl (by decide) rfl

/-- Counterexample for C6 as stated: the same 1.2 GB layer written without a
space produces no Recommendation at all; the history rule output is empty
and the full analysis emits nothing citing the RUN instruction. -/
theorem c6_nospace_counterexample :
    historyRule "s" [layerGBnospace] = .ok [] ∧
    analyze_image img0 bkLayerNoSpace = .ok
      [Recommendation.mk "image <none>:<none> (img-1)" "warning" rootUserImageMsg,
       Recommendation.mk "image <none>:<none> (img-1)" "suggestion" noHealthcheckMsg,
       Recommendation.mk "image <none>:<none> (img-1)" "info" pipCacheMsg] :=
  ⟨rfl, rfl⟩

/-- With Size absent the size rule defaults to 0 and stays silent. -/
theorem sizeRule_absent {subj : String} {mfs : List (String × JValue)}
    (h : jlookup mfs "Size" = none) : sizeRule subj (.obj mfs) = .ok [] := by
  unfold sizeRule
  rw [pyGetD_obj, jvGetD_none _ h]
  rfl

/-- With RootFS absent the layers rule sees no layers and stays silent. -/
theorem layersRule_absent {subj : String} {mfs : List (String × JValue)}
    (h : jlookup mfs "RootFS" = none) : layersRule subj (.obj mfs) = .ok [] := by
  unfold layersRule
  rw [pyGetD_obj, jvGetD_none _ h]
  rfl

/-- With Config absent the user defaults to root and the user rule fires. -/
theorem userRule_absent {subj : String} {mfs : List (String × JValue)}
    (h : jlookup mfs "Config" = none) :
    userRule subj (.obj mfs) = .ok [⟨subj, "warning", rootUserImageMsg⟩] := by
  unfold userRule
  rw [pyGetD_obj, jvGetD_none _ h]
  rfl

/-- With Config absent the healthcheck rule fires. -/
theorem healthcheckRule_absent {subj : String} {mfs : List (String × JValue)}
    (h : jlookup mfs "Config" = none) :
    healthcheckRule subj (.obj mfs) = .ok [⟨subj, "suggestion", noHealthcheckMsg⟩] := by
  unfold healthcheckRule
  rw [pyGetD_obj, jvGetD_none _ h]
  rfl

/-- With Config absent no ports are exposed and the label rule stays
silent. -/
theorem portsLabelRule_absent {subj : String} {mfs : List (String × JValue)}
    (h : jlookup mfs "Config" = none) : portsLabelRule subj (.obj mfs) = .ok [] := by
  unfold portsLabelRule
  rw [pyGetD_obj, jvGetD_none _ h]
  rfl

/-- With Config absent there is no command, so the PYTHONUNBUFFERED rule
stays silent. -/
theorem pythonEnvRule_absent {subj : String} {mfs : List (String × JValue)}
    (h : jlookup mfs "Config" = none) : pythonEnvRule subj (.obj mfs) = .ok [] := by
  unfold pythonEnvRule
  rw [pyGetD_obj, jvGetD_none _ h]
  rfl

/-- With Config absent PIP_NO_CACHE_DIR is unset and the pip cache rule
fires. -/
theorem pipCacheRule_absent {subj : String} {mfs : List (String × JValue)}
    (h : jlookup mfs "Config" = none) :
    pipCacheRule subj (.obj mfs) = .ok [⟨subj, "info", pipCacheMsg⟩] := by
  unfold pipCacheRule
  rw [pyGetD_obj, jvGetD_none _ h]
  rfl

/-- One loop iteration over a dict layer never raises. -/
theorem layerRecOf_total {subj s : String} {lfs : List (String × JValue)} :
    ∃ r, layerRecOf subj (.obj lfs) s = .ok r := by
  unfold layerRecOf
  rcases hsp : pySplitWs s with _ | ⟨v, _ | ⟨u, _ | _⟩⟩
  · exact ⟨none, rfl⟩
  · exact ⟨none, rfl⟩
  · simp only [layerRecOfSplit]
    cases hx : parseFloat v with
    | none => exact ⟨none, rfl⟩
    | some x =>
      simp only [layerRecOfParsed]
      cases hc : (startsWithStr (upperStr u) "GB" ||
          (startsWithStr (upperStr u) "MB" && decide (x > 200))) with
      | false => exact ⟨none, rfl⟩
      | true => exact ⟨_, rfl⟩
  · exact ⟨none, rfl⟩

/-- The comprehension filter never raises on dict layers, and all kept
layers remain dicts. -/
theorem largeLayers_total {hist : List JValue}
    (h : ∀ l ∈ hist, ∃ lfs, l = JValue.obj lfs) :
    ∃ big, largeLayers hist = .ok big ∧ ∀ l ∈ big, ∃ lfs, l = JValue.obj lfs := by
  induction hist with
  | nil => exact ⟨[], rfl, by simp⟩
  | cons l ls ih =>
    obtain ⟨lfs, rfl⟩ := h l (List.mem_cons_self _ _)
    obtain ⟨rest, hrest, hrestobj⟩ := ih (fun x hx => h x (List.mem_cons_of_mem _ hx))
    refine ⟨if (truthy (jvGetD lfs "Size" .null) && !(jeqStr (jvGetD lfs "Size" .null) "0B") &&
        !(jeqStr (jvGetD lfs "Size" .null) "0 B")) then JValue.obj lfs :: rest else rest, ?_, ?_⟩
    · unfold largeLayers
      rw [pyGet_obj, ok_bind, hrest, ok_bind]
      rfl
    · intro x hx
      by_cases hc : (truthy (jvGetD lfs "Size" .null) && !(jeqStr (jvGetD lfs "Size" .null) "0B") &&
          !(jeqStr (jvGetD lfs "Size" .null) "0 B")) = true
      · rw [if_pos hc] at hx
        rcases List.mem_cons.mp hx with rfl | hx'
        · exact ⟨lfs, rfl⟩
        · exact hrestobj x hx'
      · rw [if_neg hc] at hx
        exact hrestobj x hx
    
/-- The emission loop never raises on dict layers. -/
theorem layerRecs_total {subj : String} {big : List JValue}
    (h : ∀ l ∈ big, ∃ lfs, l = JValue.obj lfs) :
    ∃ out, layerRecs subj big = .ok out := by
  induction big with
  | nil => exact ⟨[], rfl⟩
  | cons l ls ih =>
    obtain ⟨lfs, rfl⟩ := h l (List.mem_cons_self _ _)
    obtain ⟨rest, hrest⟩ := ih (fun x hx => h x (List.mem_cons_of_mem _ hx))
    obtain ⟨r?, hr⟩ := @layerRecOf_total subj (pyStr (jvGetD lfs "Size" JValue.null)) lfs
    cases r? with
    | some r =>
      refine ⟨r :: rest, ?_⟩
      unfold layerRecs
      rw [pyGet_obj, ok_bind, hr, ok_bind, hrest, ok_bind]
      rfl
    | none =>
      refine ⟨rest, ?_⟩
      unfold layerRecs
      rw [pyGet_obj, ok_bind, hr, ok_bind, hrest, ok_bind]
      rfl

/-- The history rule never raises when every history row is a dict. -/
theorem historyRule_total {subj : String} {hist : List JValue}
    (h : ∀ l ∈ hist, ∃ lfs, l = JValue.obj lfs) :
    ∃ out, historyRule subj hist = .ok out := by
  obtain ⟨big, hbig, hbigobj⟩ := largeLayers_total h
  obtain ⟨out, hout⟩ := @layerRecs_total subj big hbigobj
  refine ⟨out, ?_⟩
  unfold historyRule
  rw [hbig, ok_bind, hout]

/-- With State absent the running check defaults to False and the
not-running warning fires. -/
theorem runningHealthRule_absent {subj : String} {mfs : List (String × JValue)}
    (h : jlookup mfs "State" = none) :
    runningHealthRule subj (.obj mfs) = .ok [⟨subj, "warning", notRunningMsg⟩] := by
  unfold runningHealthRule
  rw [pyGetD_obj, jvGetD_none _ h]
  rfl

/-- With Config absent the container user rule fires. -/
theorem containerUserRule_absent {subj : String} {mfs : List (String × JValue)}
    (h : jlookup mfs "Config" = none) :
    containerUserRule subj (.obj mfs) = .ok [⟨subj, "warning", rootUserContainerMsg⟩] := by
  unfold containerUserRule
  rw [pyGetD_obj, jvGetD_none _ h]
  rfl

/-- With HostConfig absent the restart-policy rule fires. -/
theorem restartPolicyRule_absent {subj : String} {mfs : List (String × JValue)}
    (h : jlookup mfs "HostConfig" = none) :
    restartPolicyRule subj (.obj mfs) = .ok [⟨subj, "suggestion", restartMsg⟩] := by
  unfold restartPolicyRule
  rw [pyGetD_obj, jvGetD_none _ h]
  rfl

/-- With HostConfig absent the privileged rule stays silent. -/
theorem privilegedRule_absent {subj : String} {mfs : List (String × JValue)}
    (h : jlookup mfs "HostConfig" = none) :
    privilegedRule subj (.obj mfs) = .ok [] := by
  unfold privilegedRule
  rw [pyGetD_obj, jvGetD_none _ h]
  rfl

/-- With HostConfig absent the memory rule fires. -/
theorem memoryRule_absent {subj : String} {mfs : List (String × JValue)}
    (h : jlookup mfs "HostConfig" = none) :
    memoryRule subj (.obj mfs) = .ok [⟨subj, "info", memoryMsg⟩] := by
  unfold memoryRule
  rw [pyGetD_obj, jvGetD_none _ h]
  rfl

/-- With HostConfig absent the logging rule stays silent. -/
theorem logConfigRule_hostconfig_absent {subj : String} {mfs : List (String × JValue)}
    (h : jlookup mfs "HostConfig" = none) :
    logConfigRule subj (.obj mfs) = .ok [] := by
  unfold logConfigRule
  rw [pyGetD_obj, jvGetD_none _ h]
  rfl

/-- With NetworkSettings absent the port-binding rule stays silent. -/
theorem portsBindingRule_absent {subj : String} {mfs : List (String × JValue)}
    (h : jlookup mfs "NetworkSettings" = none) :
    portsBindingRule subj (.obj mfs) = .ok [] := by
  unfold portsBindingRule
  rw [pyGetD_obj, jvGetD_none _ h]
  rfl

/-- C3 (amended): evaluation never raises when the optional metadata fields
are absent; each is treated as its default. Null values of dict-typed
fields are not safe: a present-but-null Config or State raises
AttributeError, see the counterexample. -/
theorem c3_absent_fields_default :
    (∀ (img : JValue) (d : DockerBackend) (p : String × String)
       (mfs : List (String × JValue)) (hs : List JValue),
       imageSubject img = .ok p →
       d.inspectImage p.1 = .ok (.obj mfs) →
       jlookup mfs "Size" = none → jlookup mfs "RootFS" = none →
       jlookup mfs "Config" = none →
       d.imageHistory p.1 = .ok hs → (∀ l ∈ hs, ∃ lfs, l = JValue.obj lfs) →
       ∃ recs, analyze_image img d = .ok recs) ∧
    (∀ (c : JValue) (d : DockerBackend) (p : String × String)
       (mfs : List (String × JValue)),
       containerSubject c = .ok p →
       d.inspectContainer p.1 = .ok (.obj mfs) →
       jlookup mfs "State" = none → jlookup mfs "Config" = none →
       jlookup mfs "HostConfig" = none → jlookup mfs "NetworkSettings" = none →
       ∃ recs, analyze_container c d = .ok recs) := by
  constructor
  · intro img d p mfs hs hsubj hm hS hR hC hh hobj
    obtain ⟨r8, h8⟩ := @historyRule_total p.2 hs hobj
    exact ⟨_, by
      unfold analyze_image
      rw [hsubj, ok_bind, hm]
      simp only [sizeRule_absent hS, layersRule_absent hR, userRule_absent hC,
        healthcheckRule_absent hC, portsLabelRule_absent hC, pythonEnvRule_absent hC,
        pipCacheRule_absent hC, hh, h8, ok_bind]
      rfl⟩
  · intro c d p mfs hsubj hm hS hC hH hN
    exact ⟨_, by
      unfold analyze_container
      rw [hsubj, ok_bind, hm]
      simp only [runningHealthRule_absent hS, containerUserRule_absent hC,
        restartPolicyRule_absent hH, privilegedRule_absent hH, memoryRule_absent hH,
        logConfigRule_hostconfig_absent hH, portsBindingRule_absent hN, ok_bind]
      rfl⟩

/-- Witness for C3 at the fully-empty metadata backend. -/
theorem c3_absent_fields_default_witness :
    (∃ recs, analyze_image img0 bkEmptyMeta = .ok recs) ∧
    (∃ recs, analyze_container ctr0 bkEmptyMeta = .ok recs) :=
  ⟨c3_absent_fields_default.1 img0 bkEmptyMeta ("img-1", "image <none>:<none> (img-1)") [] []
     rfl rfl rfl rfl rfl rfl (by simp),
   c3_absent_fields_default.2 ctr0 bkEmptyMeta ("ctr-1", "container <unnamed> (ctr-1)") []
     rfl rfl rfl rfl rfl rfl⟩

/-- Counterexample for C3 as stated: a present-but-null Config (image) or
State (container) makes the analysis raise AttributeError instead of
treating the field as absent. -/
theorem c3_null_field_counterexample :
    analyze_image img0 bkNullConfig =
      .error "AttributeError: \x27NoneType\x27 object has no attribute \x27get\x27" ∧
    analyze_container ctr0 bkNullState =
      .error "AttributeError: \x27NoneType\x27 object has no attribute \x27get\x27" :=
  ⟨rfl, rfl⟩

/-- The running/health rule returns nothing, the not-running warning, or a
health warning; never more than one. -/
theorem runningHealthRule_cases {subj : String} {m : JValue} {l : List Recommendation}
    (h : runningHealthRule subj m = .ok l) :
    l = [] ∨ l = [⟨subj, "warning", notRunningMsg⟩] ∨
      ∃ v, l = [⟨subj, "warning", healthWarnMsg v⟩] := by
  unfold runningHealthRule at h
  obtain ⟨st, h1, h⟩ := bind_ok h
  obtain ⟨run, h2, h⟩ := bind_ok h
  split at h
  · exact Or.inr (Or.inl (pure_ok h).symm)
  · obtain ⟨hv, h3, h⟩ := bind_ok h
    split at h
    · obtain ⟨sv, h4, h⟩ := bind_ok h
      split at h
      · obtain ⟨sv2, h5, h⟩ := bind_ok h
        exact Or.inr (Or.inr ⟨pyStr sv2, (pure_ok h).symm⟩)
      · exact Or.inl (pure_ok h).symm
    · exact Or.inl (pure_ok h).symm

/-- The container user rule emits at most its fixed warning. -/
theorem containerUserRule_cases {subj : String} {m : JValue} {l : List Recommendation}
    (h : containerUserRule subj m = .ok l) :
    l = [] ∨ l = [⟨subj, "warning", rootUserContainerMsg⟩] := by
  unfold containerUserRule at h
  obtain ⟨cfg, h1, h⟩ := bind_ok h
  obtain ⟨uv, h2, h⟩ := bind_ok h
  split at h
  · exact Or.inr (pure_ok h).symm
  · exact Or.inl (pure_ok h).symm

/-- The restart-policy rule emits at most its fixed suggestion. -/
theorem restartPolicyRule_cases {subj : String} {m : JValue} {l : List Recommendation}
    (h : restartPolicyRule subj m = .ok l) :
    l = [] ∨ l = [⟨subj, "suggestion", restartMsg⟩] := by
  unfold restartPolicyRule at h
  obtain ⟨hc, h1, h⟩ := bind_ok h
  obtain ⟨rp, h2, h⟩ := bind_ok h
  obtain ⟨nv, h3, h⟩ := bind_ok h
  split at h
  · exact Or.inr (pure_ok h).symm
  · exact Or.inl (pure_ok h).symm

/-- The privileged rule emits at most its fixed warning. -/
theorem privilegedRule_cases {subj : String} {m : JValue} {l : List Recommendation}
    (h : privilegedRule subj m = .ok l) :
    l = [] ∨ l = [⟨subj, "warning", privilegedMsg⟩] := by
  unfold privilegedRule at h
  obtain ⟨hc, h1, h⟩ := bind_ok h
  obtain ⟨pv, h2, h⟩ := bind_ok h
  split at h
  · exact Or.inr (pure_ok h).symm
  · exact Or.inl (pure_ok h).symm

/-- The memory rule emits at most its fixed info. -/
theorem memoryRule_cases {subj : String} {m : JValue} {l : List Recommendation}
    (h : memoryRule subj m = .ok l) :
    l = [] ∨ l = [⟨subj, "info", memoryMsg⟩] := by
  unfold memoryRule at h
  obtain ⟨hc, h1, h⟩ := bind_ok h
  obtain ⟨mv, h2, h⟩ := bind_ok h
  split at h
  · exact Or.inr (pure_ok h).symm
  · exact Or.inl (pure_ok h).symm

/-- The logging rule emits at most its fixed suggestion. -/
theorem logConfigRule_cases {subj : String} {m : JValue} {l : List Recommendation}
    (h : logConfigRule subj m = .ok l) :
    l = [] ∨ l = [⟨subj, "suggestion", logConfigMsg⟩] := by
  unfold logConfigRule at h
  obtain ⟨hc, h1, h⟩ := bind_ok h
  obtain ⟨lc, h2, h⟩ := bind_ok h
  obtain ⟨tv, h3, h⟩ := bind_ok h
  split at h
  · exact Or.inr (pure_ok h).symm
  · exact Or.inl (pure_ok h).symm

/-- The port-binding rule emits at most its fixed info. -/
theorem portsBindingRule_cases {subj : String} {m : JValue} {l : List Recommendation}
    (h : portsBindingRule subj m = .ok l) :
    l = [] ∨ l = [⟨subj, "info", portsBindMsg⟩] := by
  unfold portsBindingRule at h
  obtain ⟨ns, h1, h⟩ := bind_ok h
  obtain ⟨pv, h2, h⟩ := bind_ok h
  split at h
  · obtain ⟨psv, h3, h⟩ := bind_ok h
    obtain ⟨vals, h4, h⟩ := bind_ok h
    split at h
    · exact Or.inr (pure_ok h).symm
    · exact Or.inl (pure_ok h).symm
  · exact Or.inl (pure_ok h).symm

/-- A member of an at-most-singleton rule output is that fixed record. -/
theorem mem_rule_fixed {x y : Recommendation} {l : List Recommendation}
    (hcase : l = [] ∨ l = [y]) (hx : x ∈ l) : x = y := by
  rcases hcase with rfl | rfl
  · exact absurd hx (List.not_mem_nil x)
  · exact List.mem_singleton.mp hx

/-- The 11th character of any health warning message is the h of health. -/
theorem healthWarnMsg_data_10 (v : String) :
    (healthWarnMsg v).data[10]? = some 'h' := by
  unfold healthWarnMsg
  rw [String.data_append, String.data_append]
  rw [List.getElem?_append_left, List.getElem?_append_left]
  · rfl
  · show 10 < ("Container health status is " : String).data.length
    decide
  · rw [List.length_append]
    have : ("Container health status is " : String).data.length = 27 := rfl
    omega

/-- No health warning message equals a string whose 11th character is not
the h of health. -/
theorem healthWarnMsg_ne (v : String) {t : String} (ht : t.data[10]? ≠ some 'h') :
    healthWarnMsg v ≠ t := by
  intro heq
  exact ht (heq ▸ healthWarnMsg_data_10 v)

/-- C10: a completed container analysis never contains both the not-running
warning and a health-status warning; the health check lives in the elif
branch of the running check, so the two are mutually exclusive. -/
theorem c10_runtime_state_warnings_exclusive (c : JValue) (d : DockerBackend)
    (recs : List Recommendation) (h : analyze_container c d = .ok recs) :
    ¬ ((∃ s, Recommendation.mk s "warning" notRunningMsg ∈ recs) ∧
       (∃ s v, Recommendation.mk s "warning" (healthWarnMsg v) ∈ recs)) := by
  rintro ⟨⟨s₁, hmem1⟩, s₂, v, hmem2⟩
  obtain ⟨p, hp, hcase⟩ := analyze_container_ok_elim h
  rcases hcase with ⟨e, he, hrecs⟩ |
    ⟨m, r1, r2, r3, r4, r5, r6, r7, hm, h1, h2, h3, h4, h5, h6, h7, hrecs⟩
  · subst hrecs
    have heq1 := List.mem_singleton.mp hmem1
    have heq2 := List.mem_singleton.mp hmem2
    rw [Recommendation.mk.injEq] at heq1 heq2
    exact healthWarnMsg_ne v (by decide) (heq2.2.2.trans heq1.2.2.symm)
  · subst hrecs
    cases hemp : (r1 ++ r2 ++ r3 ++ r4 ++ r5 ++ r6 ++ r7).isEmpty with
    | true =>
      rw [if_pos hemp] at hmem1
      have heq1 := List.mem_singleton.mp hmem1
      rw [Recommendation.mk.injEq] at heq1
      exact absurd heq1.2.2 (by decide)
    | false =>
      rw [if_neg (by rw [hemp]; simp)] at hmem1 hmem2
      simp only [List.mem_append] at hmem1 hmem2
      have hr1 : Recommendation.mk s₁ "warning" notRunningMsg ∈ r1 := by
        rcases hmem1 with ((((((hm1 | hm1) | hm1) | hm1) | hm1) | hm1) | hm1)
        · exact hm1
        · have heq := mem_rule_fixed (containerUserRule_cases h2) hm1
          rw [Recommendation.mk.injEq] at heq
          exact absurd heq.2.2 (by decide)
        · have heq := mem_rule_fixed (restartPolicyRule_cases h3) hm1
          rw [Recommendation.mk.injEq] at heq
          exact absurd heq.2.2 (by decide)
        · have heq := mem_rule_fixed (privilegedRule_cases h4) hm1
          rw [Recommendation.mk.injEq] at heq
          exact absurd heq.2.2 (by decide)
        · have heq := mem_rule_fixed (memoryRule_cases h5) hm1
          rw [Recommendation.mk.injEq] at heq
          exact absurd heq.2.2 (by decide)
        · have heq := mem_rule_fixed (logConfigRule_cases h6) hm1
          rw [Recommendation.mk.injEq] at heq
          exact absurd heq.2.2 (by decide)
        · have heq := mem_rule_fixed (portsBindingRule_cases h7) hm1
          rw [Recommendation.mk.injEq] at heq
          exact absurd heq.2.2 (by decide)
      rcases runningHealthRule_cases h1 with hr | hr | ⟨v', hr⟩
      · rw [hr] at hr1
        exact absurd hr1 (List.not_mem_nil _)
      · rcases hmem2 with ((((((hm2 | hm2) | hm2) | hm2) | hm2) | hm2) | hm2)
        · rw [hr] at hm2
          have heq := List.mem_singleton.mp hm2
          rw [Recommendation.mk.injEq] at heq
          exact healthWarnMsg_ne v (by decide) heq.2.2
        · have heq := mem_rule_fixed (containerUserRule_cases h2) hm2
          rw [Recommendation.mk.injEq] at heq
          exact healthWarnMsg_ne v (by decide) heq.2.2
        · have heq := mem_rule_fixed (restartPolicyRule_cases h3) hm2
          rw [Recommendation.mk.injEq] at heq
          exact healthWarnMsg_ne v (by decide) heq.2.2
        · have heq := mem_rule_fixed (privilegedRule_cases h4) hm2
          rw [Recommendation.mk.injEq] at heq
          exact healthWarnMsg_ne v (by decide) heq.2.2
        · have heq := mem_rule_fixed (memoryRule_cases h5) hm2
          rw [Recommendation.mk.injEq] at heq
          exact healthWarnMsg_ne v (by decide) heq.2.2
        · have heq := mem_rule_fixed (logConfigRule_cases h6) hm2
          rw [Recommendation.mk.injEq] at heq
          exact healthWarnMsg_ne v (by decide) heq.2.2
        · have heq := mem_rule_fixed (portsBindingRule_cases h7) hm2
          rw [Recommendation.mk.injEq] at heq
          exact healthWarnMsg_ne v (by decide) heq.2.2
      · rw [hr] at hr1
        have heq := List.mem_singleton.mp hr1
        rw [Recommendation.mk.injEq] at heq
        exact healthWarnMsg_ne v' (by decide) heq.2.2.symm

/-- Witness for C10 at the stopped-container fixture. -/
theorem c10_runtime_state_warnings_exclusive_witness :
    ¬ ((∃ s, Recommendation.mk s "warning" notRunningMsg ∈
          [Recommendation.mk "container <unnamed> (ctr-1)" "warning" notRunningMsg,
           Recommendation.mk "container <unnamed> (ctr-1)" "warning" rootUserContainerMsg,
           Recommendation.mk "container <unnamed> (ctr-1)" "suggestion" restartMsg,
           Recommendation.mk "container <unnamed> (ctr-1)" "info" memoryMsg]) ∧
       (∃ s v, Recommendation.mk s "warning" (healthWarnMsg v) ∈
          [Recommendation.mk "container <unnamed> (ctr-1)" "warning" notRunningMsg,
           Recommendation.mk "container <unnamed> (ctr-1)" "warning" rootUserContainerMsg,
           Recommendation.mk "container <unnamed> (ctr-1)" "suggestion" restartMsg,
           Recommendation.mk "container <unnamed> (ctr-1)" "info" memoryMsg])) :=
  c10_runtime_state_warnings_exclusive ctr0 bkNotRunning _ rfl
